import Mathlib

/-!
Shallow embedding of the measurement-plugin service core
(packages/service/ni_measurement_plugin_sdk_service): the v3 servicer in
_internal/grpc_servicer.py, the call loggers in grpc/loggers.py, and the
host-side MeasurementService in measurement/service.py. Each definition is
translated from the named source location; external collaborators (the gRPC
runtime, the protobuf codec, the discovery client) are kept abstract and only
their observable interactions are modelled.
-/

/-- Generic test whether the first list occurs as a prefix of the second. -/
def listStartsWith {α : Type} [DecidableEq α] : List α → List α → Bool
  | [], _ => true
  | _ :: _, [] => false
  | a :: as, b :: bs => a = b && listStartsWith as bs

/-- Generic test whether the first list occurs as a contiguous sub-list of the second. -/
def listHasSub {α : Type} [DecidableEq α] (pat : List α) : List α → Bool
  | [] => listStartsWith pat []
  | b :: bs => listStartsWith pat (b :: bs) || listHasSub pat bs

/-- Embeds the Python substring test (pat in s) applied to type-hint strings in
_get_mapping_by_parameter_name and to error messages. -/
def strHasSub (s pat : String) : Bool :=
  listHasSub pat.toList s.toList

/-- One declared parameter of the user measurement routine, as inspected through
inspect.signature in grpc_servicer.py: its name and the string form of its static
type hint (empty when the parameter has no hint). -/
structure SigParam where
  name : String
  hint : String
deriving DecidableEq

/-- Python exceptions that the embedded fragments can raise. -/
inductive PyError
  | keyError
  | typeErrorMissingArgs
  | runtimeError
  | userException
deriving DecidableEq

/-- Embeds Python dict assignment d[k] = v: replaces the value in place when the key
exists, otherwise appends the new key (Python dicts keep first-insertion order). -/
def dictInsert {α : Type} (m : List (String × α)) (k : String) (v : α) : List (String × α) :=
  match m with
  | [] => [(k, v)]
  | (k0, v0) :: rest => if k0 = k then (k0, v) :: rest else (k0, v0) :: dictInsert rest k v

/-- Embeds the first loop of _get_mapping_by_parameter_name (grpc_servicer.py lines
134-141): a parameter whose type hint mentions MeasureRequest is bound to the request
iterator, else one whose hint mentions ServicerContext is bound to the transport
context, and the two found flags record whether each annotated slot was seen. -/
def typeHintPass {α : Type} (requestIterator ctx : α) (params : List SigParam) :
    List (String × α) × Bool × Bool :=
  params.foldl
    (fun acc p =>
      if strHasSub p.hint "MeasureRequest" then
        (dictInsert acc.1 p.name requestIterator, true, acc.2.2)
      else if strHasSub p.hint "ServicerContext" then
        (dictInsert acc.1 p.name ctx, acc.2.1, true)
      else acc)
    ([], false, false)

/-- Embeds the second loop of _get_mapping_by_parameter_name (grpc_servicer.py lines
143-153). The index i is 1-based as produced by enumerate(..., start=1), configI is
the next configuration ordinal (config_i), and n is the total number of declared
parameters. Looking up a missing ordinal in mappingById raises KeyError. Note that
this loop assigns every parameter, including the ones the first loop already bound. -/
def positionalPass {α : Type} (mappingById : List (Nat × α)) (requestIterator ctx : α)
    (n : Nat) (foundRequestIterator foundContext : Bool) :
    Nat → Nat → List (String × α) → List SigParam → Except PyError (List (String × α))
  | _, _, acc, [] => .ok acc
  | i, configI, acc, p :: rest =>
    if !foundRequestIterator && i == 1 then
      positionalPass mappingById requestIterator ctx n foundRequestIterator foundContext
        (i + 1) configI (dictInsert acc p.name requestIterator) rest
    else if !foundContext && i == n then
      positionalPass mappingById requestIterator ctx n foundRequestIterator foundContext
        (i + 1) configI (dictInsert acc p.name ctx) rest
    else
      match mappingById.lookup configI with
      | some v =>
          positionalPass mappingById requestIterator ctx n foundRequestIterator foundContext
            (i + 1) (configI + 1) (dictInsert acc p.name v) rest
      | none => .error .keyError

/-- Embeds _get_mapping_by_parameter_name (grpc_servicer.py lines 124-155) over an
abstract value type: mappingById plays the decoded dict from ordinal to value,
requestIterator and ctx are the live request stream and the transport context, and
params is the signature of the registered measure function. -/
def getMappingByParameterName {α : Type} (mappingById : List (Nat × α))
    (requestIterator ctx : α) (params : List SigParam) : Except PyError (List (String × α)) :=
  let s := typeHintPass requestIterator ctx params
  positionalPass mappingById requestIterator ctx params.length s.2.1 s.2.2 1 1 s.1 params

/-- Distinguishable runtime values used to observe which object each parameter ends up
bound to: the request stream handle, the transport context, or a decoded configuration
value by ordinal. -/
inductive BindVal
  | requestStream
  | transportContext
  | cfg (ordinal : Nat)
deriving DecidableEq

/-- Status codes passed to abort, kept abstract. -/
inductive StatusCode
  | okCode
  | cancelledCode
  | invalidArgument
  | unknown
deriving DecidableEq

/-- State of a MeasurementServiceContext (grpc_servicer.py lines 31-95): the completion
flag that mark_complete sets. The transport handle and the pin map context are opaque
to the properties modelled here. -/
structure MSContext where
  isComplete : Bool
deriving DecidableEq

/-- Observable actions on the underlying transport context and on user-supplied
cancellation callbacks. -/
inductive TransportEffect
  | cancelRpc
  | abortRpc (code : StatusCode) (details : String)
  | userCancelCallback
deriving DecidableEq

/-- Embeds MeasurementServiceContext.mark_complete (grpc_servicer.py lines 46-48). -/
def mscMarkComplete (c : MSContext) : MSContext :=
  { c with isComplete := true }

/-- Operations performed on one MeasurementServiceContext after construction: cancel
and abort from grpc_servicer.py, fireCancelCallbackOp models the transport invoking the
wrapper that add_cancel_callback registered (lines 67-74), and markCompleteOp. -/
inductive MSCOp
  | cancelOp
  | abortOp (code : StatusCode) (details : String)
  | fireCancelCallbackOp
  | markCompleteOp

/-- Embeds one operation. cancel (lines 76-79) calls the transport cancel only when the
context is not complete; abort (lines 86-95) calls the transport abort with no check of
the completion flag; the registered cancellation wrapper (lines 70-72) invokes the user
callback only when the context is not complete at firing time. -/
def mscStep (c : MSContext) : MSCOp → MSContext × List TransportEffect
  | .cancelOp => (c, if c.isComplete then [] else [.cancelRpc])
  | .abortOp code details => (c, [.abortRpc code details])
  | .fireCancelCallbackOp => (c, if c.isComplete then [] else [.userCancelCallback])
  | .markCompleteOp => (mscMarkComplete c, [])

/-- Runs a sequence of operations on a context, accumulating transport effects. -/
def mscRun (c : MSContext) : List MSCOp → MSContext × List TransportEffect
  | [] => (c, [])
  | op :: ops =>
      let r := mscStep c op
      let rest := mscRun r.1 ops
      (rest.1, r.2 ++ rest.2)

/-- True when an effect is a transport cancel or a user cancellation callback, the two
effects the completion flag is claimed to suppress. -/
def isCancelObservable : TransportEffect → Bool
  | .cancelRpc => true
  | .userCancelCallback => true
  | .abortRpc _ _ => false

/-- State of a _CallLogger (loggers.py lines 236-259): the closed flag guarded by the
class-wide lock, and the list of exception arguments with which the underlying
lifecycle emission _close has run, in order. -/
structure CallLoggerState where
  closed : Bool
  emitted : List (Option PyError)
deriving DecidableEq

/-- A _CallLogger as just constructed (loggers.py line 246). -/
def freshCallLogger : CallLoggerState :=
  { closed := false, emitted := [] }

/-- Embeds _CallLogger.close (loggers.py lines 248-255): under the lock, return without
emitting when already closed, otherwise set the flag; the _close emission then runs
outside the lock with the given exception argument. -/
def callLoggerClose (s : CallLoggerState) (exc : Option PyError) : CallLoggerState :=
  if s.closed then s else { closed := true, emitted := s.emitted ++ [exc] }

/-- Folds close over a list of exception arguments, one close call per element. -/
def callLoggerCloseMany (s : CallLoggerState) (excs : List (Option PyError)) : CallLoggerState :=
  excs.foldl callLoggerClose s

/-- State of a contextvars ContextVar as seen by one call: the current value, if any. -/
structure ContextVarState (α : Type) where
  current : Option α
deriving DecidableEq

/-- Embeds ContextVar.set: stores the new value and returns the token, which records
the previous value so reset can restore it. -/
def contextVarSet {α : Type} (s : ContextVarState α) (v : α) : ContextVarState α × Option α :=
  (⟨some v⟩, s.current)

/-- Embeds ContextVar.reset with a token produced by contextVarSet. -/
def contextVarReset {α : Type} (token : Option α) : ContextVarState α :=
  ⟨token⟩

/-- How the iteration of the user routine inside the try block ends: the response
stream is exhausted after some responses, the routine raises after some responses, or
the transport cancels the call after some responses. -/
inductive BodyOutcome
  | completed (responses : Nat)
  | raised (responses : Nat) (e : PyError)
  | cancelled (responses : Nat)
deriving DecidableEq

/-- Observable events of the published-context phase of Measure. -/
inductive MeasureEvent (α : Type)
  | published (c : α)
  | yielded (index : Nat)
  | markedComplete (c : α)
  | unpublished
deriving DecidableEq

/-- Responses forwarded to the caller inside the try block, one yield per response
produced before the outcome occurs. -/
def bodyEvents {α : Type} : BodyOutcome → List (MeasureEvent α)
  | .completed n => (List.range n).map .yielded
  | .raised n _ => (List.range n).map .yielded
  | .cancelled n => (List.range n).map .yielded

/-- True exactly on a markedComplete event. -/
def isMarkedCompleteEvent {α : Type} : MeasureEvent α → Bool
  | .markedComplete _ => true
  | _ => false

/-- Embeds the publish, try, finally fragment of MeasurementServiceServicerV3.Measure
(grpc_servicer.py lines 258-266): set the context variable keeping the returned token,
iterate the user routine yielding each response, and in the finally block mark the
context obtained from the context variable complete and then reset the variable to the
token. Returns the event trace and the final context-variable state. -/
def measureFromPublish {α : Type} (var : ContextVarState α) (c : α) (outcome : BodyOutcome) :
    List (MeasureEvent α) × ContextVarState α :=
  let sv := contextVarSet var c
  let finallyTrace : List (MeasureEvent α) :=
    (sv.1.current.map (fun x => MeasureEvent.markedComplete x)).toList ++ [.unpublished]
  ([.published c] ++ bodyEvents outcome ++ finallyTrace, contextVarReset sv.2)

/-- A packed google.protobuf.Any payload: the declared type URL plus opaque bytes. -/
structure AnyPayload where
  typeUrl : String
  value : List Nat
deriving DecidableEq

/-- The part of the v3 MeasureRequest that the embedded Measure body reads; the pin map
context field is not needed by the modelled properties. -/
structure MeasureRequestMsg where
  configurationParameters : AnyPayload
deriving DecidableEq

/-- The advisory raised by _validate_parameters on a type URL mismatch, carrying the
expected and the actual type URL named in its message (grpc_servicer.py 272-275). -/
structure WrongMessageTypeWarning where
  expected : String
  actual : String
deriving DecidableEq

/-- Embeds the configuration message type computed in the servicer constructor
(grpc_servicer.py line 188): the service class with the Configurations suffix. -/
def configurationParametersMessageType (serviceClass : String) : String :=
  serviceClass ++ ".Configurations"

/-- Embeds MeasurementServiceServicerV3._validate_parameters (grpc_servicer.py lines
268-275): compare the declared type URL of the packed configuration against the
expected composite type URL and emit the advisory warning when they differ; the check
never raises and never aborts the call. -/
def validateParameters (serviceClass : String) (cp : AnyPayload) :
    List WrongMessageTypeWarning :=
  let expectedType := "type.googleapis.com/" ++ configurationParametersMessageType serviceClass
  if cp.typeUrl = expectedType then []
  else [{ expected := expectedType, actual := cp.typeUrl }]

/-- Result of one embedded Measure call: either the bound keyword arguments were
produced and the user routine ran, or the call failed with a Python exception before
reaching the routine. -/
inductive MeasureRun (α : Type)
  | ran (kwargs : List (String × α))
  | failed (e : PyError)
deriving DecidableEq

/-- Embeds the call at grpc_servicer.py lines 254-256: Measure invokes
_get_mapping_by_parameter_name with two arguments, while the definition at lines
124-129 declares four required positional parameters, so Python raises TypeError at
every invocation, before the helper body runs. -/
def measureBindStep {α : Type} (_mappingById : List (Nat × α)) :
    Except PyError (List (String × α)) :=
  .error .typeErrorMissingArgs

/-- Embeds the body of MeasurementServiceServicerV3.Measure (grpc_servicer.py lines
242-266) up to the invocation of the user routine: validate the declared type URL,
collecting the advisory warnings, decode the configuration through the externally
defined decoder passed in as a function, then bind the decoded values through the
helper call. -/
def measureCall {α : Type} (serviceClass : String)
    (decode : List Nat → Except PyError (List (Nat × α)))
    (req : MeasureRequestMsg) : List WrongMessageTypeWarning × MeasureRun α :=
  let warns := validateParameters serviceClass req.configurationParameters
  match decode req.configurationParameters.value with
  | .error e => (warns, .failed e)
  | .ok mappingById =>
      match measureBindStep (α := α) mappingById with
      | .error e => (warns, .failed e)
      | .ok kwargs => (warns, .ran kwargs)

/-- State of the inner response iterator that _LoggingResponseIterator and
_LoggingResponseCallIterator wrap: the responses still to be produced and how the
stream then terminates (none for StopIteration, some e for a raised exception). -/
structure InnerStream (α : Type) where
  items : List α
  terminal : Option PyError
deriving DecidableEq

/-- Lifecycle events the streamed-response wrapper sends to its call logger. -/
inductive RespEvent
  | streamedResponse
  | closedOk
  | closedWithError (e : PyError)
deriving DecidableEq

/-- What one call of the wrapping next returns to the consumer. -/
inductive NextOutcome (α : Type)
  | item (a : α)
  | stopIteration
  | raised (e : PyError)
deriving DecidableEq

/-- Embeds the shared body of the next methods of _LoggingResponseIterator and
_LoggingResponseCallIterator (loggers.py lines 383-395 and 473-485): a successful
inner next logs a streamed response and returns the item unchanged without closing;
StopIteration closes the logger with no exception and propagates; any other exception
closes the logger with that exception and propagates. -/
def loggingResponseNext {α : Type} : InnerStream α → NextOutcome α × InnerStream α × List RespEvent
  | ⟨a :: rest, t⟩ => (.item a, ⟨rest, t⟩, [.streamedResponse])
  | ⟨[], none⟩ => (.stopIteration, ⟨[], none⟩, [.closedOk])
  | ⟨[], some e⟩ => (.raised e, ⟨[], some e⟩, [.closedWithError e])

/-- Drives the wrapper with repeated next calls until the first terminal event,
returning the items delivered to the consumer in order, the terminal event the
consumer observes, and the full logger event trace. -/
def drainResponses {α : Type} : List α → Option PyError → List α × NextOutcome α × List RespEvent
  | [], t =>
      let step := loggingResponseNext (⟨[], t⟩ : InnerStream α)
      ([], step.1, step.2.2)
  | a :: rest, t =>
      let step := loggingResponseNext (⟨a :: rest, t⟩ : InnerStream α)
      let tail := drainResponses rest t
      ((match step.1 with | .item x => [x] | _ => []) ++ tail.1, tail.2.1, step.2.2 ++ tail.2.2)

/-- True exactly on a close event of either kind. -/
def isCloseEvent : RespEvent → Bool
  | .streamedResponse => false
  | .closedOk => true
  | .closedWithError _ => true

/-- Result object a client interceptor hands back to the caller: the continuation
result untouched, or wrapped in one of the logging wrapper classes. -/
inductive ClientResult (ρ : Type)
  | plain (r : ρ)
  | loggingFuture (r : ρ)
  | loggingIter (r : ρ)
deriving DecidableEq

/-- Request argument as seen by the continuation: the original object, or wrapped in a
_LoggingRequestIterator (stream-request shapes, enabled branch only). -/
inductive ReqArg (σ : Type)
  | orig (q : σ)
  | loggingWrapped (q : σ)
deriving DecidableEq

/-- Outcome of one client interception: how many call loggers were constructed and the
result or the propagated exception. -/
structure InterceptOutcome (ρ : Type) where
  loggersCreated : Nat
  result : Except PyError (ClientResult ρ)

/-- Embeds ClientLogger.intercept_unary_unary (loggers.py lines 41-59): disabled means
return the continuation result on the unmodified arguments; enabled constructs a call
logger, wraps the returned call in a logging future, and closes the logger when the
continuation raises. -/
def interceptUnaryUnary {δ σ ρ : Type} (enabled : Bool)
    (continuation : δ → ReqArg σ → Except PyError ρ) (details : δ) (request : σ) :
    InterceptOutcome ρ :=
  if enabled then
    match continuation details (.orig request) with
    | .ok call => { loggersCreated := 1, result := .ok (.loggingFuture call) }
    | .error e => { loggersCreated := 1, result := .error e }
  else
    { loggersCreated := 0, result := (continuation details (.orig request)).map .plain }

/-- Embeds ClientLogger.intercept_unary_stream (loggers.py lines 61-79). -/
def interceptUnaryStream {δ σ ρ : Type} (enabled : Bool)
    (continuation : δ → ReqArg σ → Except PyError ρ) (details : δ) (request : σ) :
    InterceptOutcome ρ :=
  if enabled then
    match continuation details (.orig request) with
    | .ok call => { loggersCreated := 1, result := .ok (.loggingIter call) }
    | .error e => { loggersCreated := 1, result := .error e }
  else
    { loggersCreated := 0, result := (continuation details (.orig request)).map .plain }

/-- Embeds ClientLogger.intercept_stream_unary (loggers.py lines 81-101): the enabled
branch hands the continuation the request iterator wrapped for request logging. -/
def interceptStreamUnary {δ σ ρ : Type} (enabled : Bool)
    (continuation : δ → ReqArg σ → Except PyError ρ) (details : δ) (request : σ) :
    InterceptOutcome ρ :=
  if enabled then
    match continuation details (.loggingWrapped request) with
    | .ok call => { loggersCreated := 1, result := .ok (.loggingFuture call) }
    | .error e => { loggersCreated := 1, result := .error e }
  else
    { loggersCreated := 0, result := (continuation details (.orig request)).map .plain }

/-- Embeds ClientLogger.intercept_stream_stream (loggers.py lines 103-123). -/
def interceptStreamStream {δ σ ρ : Type} (enabled : Bool)
    (continuation : δ → ReqArg σ → Except PyError ρ) (details : δ) (request : σ) :
    InterceptOutcome ρ :=
  if enabled then
    match continuation details (.loggingWrapped request) with
    | .ok call => { loggersCreated := 1, result := .ok (.loggingIter call) }
    | .error e => { loggersCreated := 1, result := .error e }
  else
    { loggersCreated := 0, result := (continuation details (.orig request)).map .plain }

/-- The four gRPC method-handler shapes plus the degenerate handler none of whose
shape fields is set, which the enabled branch rejects with RuntimeError. -/
inductive HandlerShape
  | unaryUnary
  | unaryStream
  | streamUnary
  | streamStream
  | shapeless
deriving DecidableEq

/-- Handler returned by the server interceptor: untouched, or rebuilt around the
logging handler function for its shape. -/
inductive ServerHandler
  | plain (h : HandlerShape)
  | logging (h : HandlerShape)
deriving DecidableEq

/-- Outcome of ServerLogger.intercept_service: how many call loggers were constructed
and the returned handler or the propagated exception. -/
structure ServerInterceptOutcome where
  loggersCreated : Nat
  result : Except PyError (Option ServerHandler)

/-- Embeds ServerLogger.intercept_service (loggers.py lines 134-178): disabled means
return exactly the continuation result; enabled constructs the call logger before
calling the continuation, passes a missing handler through, rebuilds a shaped handler
around the logging function for its shape, and raises RuntimeError for a handler with
no shape. -/
def interceptService {δ : Type} (enabled : Bool)
    (continuation : δ → Option HandlerShape) (details : δ) : ServerInterceptOutcome :=
  if enabled then
    match continuation details with
    | none => { loggersCreated := 1, result := .ok none }
    | some h =>
        if h = .shapeless then { loggersCreated := 1, result := .error .runtimeError }
        else { loggersCreated := 1, result := .ok (some (.logging h)) }
  else
    { loggersCreated := 0, result := .ok ((continuation details).map .plain) }

/-- Modelled from the spec: the un-intercepted client call of section 4.4 — the
continuation applied to the unmodified arguments, with no logger constructed and no
wrapper interposed. -/
def passthroughClientCall {δ σ ρ : Type} (continuation : δ → ReqArg σ → Except PyError ρ)
    (details : δ) (request : σ) : InterceptOutcome ρ :=
  { loggersCreated := 0, result := (continuation details (.orig request)).map .plain }

/-- Modelled from the spec: the un-intercepted server handler lookup — the continuation
applied to the unmodified details, with no logger constructed and no wrapper. -/
def passthroughServerCall {δ : Type} (continuation : δ → Option HandlerShape) (details : δ) :
    ServerInterceptOutcome :=
  { loggersCreated := 0, result := .ok ((continuation details).map .plain) }

/-- Embeds the enumerate loop of frame_metadata_dict with its running 1-based index. -/
def frameMetadataGo {π : Type} (i : Nat) : List π → List (Nat × π)
  | [] => []
  | p :: rest => (i, p) :: frameMetadataGo (i + 1) rest

/-- Embeds frame_metadata_dict (grpc_servicer.py lines 158-165): enumerate the declared
parameter list starting at 1 and store each parameter under its 1-based position. -/
def frameMetadataDict {π : Type} (parameterList : List π) : List (Nat × π) :=
  frameMetadataGo 1 parameterList

/-- One ConfigurationParameter message of the GetMetadata response: the field number
and the source metadata whose fields (name, repeated, type, message type) it copies. -/
structure ConfigurationParameterMsg (π : Type) where
  fieldNumber : Nat
  meta : π
deriving DecidableEq

/-- Embeds the GetMetadata loop (grpc_servicer.py lines 213-222) that appends one
ConfigurationParameter per entry of the configuration metadata dict, in dict order,
with field_number equal to the dict key. -/
def getMetadataConfigurationParameters {π : Type} (parameterList : List π) :
    List (ConfigurationParameterMsg π) :=
  (frameMetadataDict parameterList).map (fun kv => { fieldNumber := kv.1, meta := kv.2 })

/-- The MeasurementService state that listen consults (measurement/service.py): whether
register_measurement replaced the not-registered sentinel, and whether a grpc service
object already exists from a prior listen without close_service. -/
structure HostState where
  measureFunctionRegistered : Bool
  grpcServiceRunning : Bool
deriving DecidableEq

/-- Error message of _raise_measurement_method_not_registered (service.py 260-263). -/
def notRegisteredMessage : String :=
  "Measurement method not registered. Use the register_measurement decorator to register it."

/-- Error message for a second listen without close_service (service.py line 470). -/
def alreadyRunningMessage : String :=
  "Measurement service already running."

/-- Event of the success path of listen: the grpc server object is created and started. -/
inductive HostEvent
  | serverCreatedAndStarted
deriving DecidableEq

/-- Embeds MeasurementService.listen (service.py lines 460-481): under the
initialization lock, raise the not-registered RuntimeError when no measurement
function was registered, then raise the already-running RuntimeError when a grpc
service object exists, and otherwise create and start the grpc service. -/
def MeasurementService.listen (s : HostState) : Except String HostState × List HostEvent :=
  if !s.measureFunctionRegistered then (.error notRegisteredMessage, [])
  else if s.grpcServiceRunning then (.error alreadyRunningMessage, [])
  else (.ok { s with grpcServiceRunning := true }, [.serverCreatedAndStarted])

/-- Embeds the DataType enum (measurement/info.py lines 94-125). -/
inductive DataType
  | Int32
  | Int64
  | UInt32
  | UInt64
  | Float
  | Double
  | Boolean
  | String
  | Pin
  | Path
  | Enum
  | DoubleXYData
  | IOResource
  | Double2DArray
  | String2DArray
  | Int32Array1D
  | Int64Array1D
  | UInt32Array1D
  | UInt64Array1D
  | FloatArray1D
  | DoubleArray1D
  | BooleanArray1D
  | StringArray1D
  | PinArray1D
  | PathArray1D
  | EnumArray1D
  | DoubleXYDataArray1D
  | IOResourceArray1D
deriving DecidableEq

/-- Warnings the configuration decorator emits for the deprecated pin data types
(service.py lines 368-376). -/
inductive ConfigWarning
  | pinDeprecated
  | pinArray1DDeprecated
deriving DecidableEq

/-- The ValueError raised for configuration data types that are rejected
(service.py lines 377-383), carrying the offending type named in its message. -/
inductive ConfigError
  | valueErrorUnsupported (t : DataType)
deriving DecidableEq

/-- Embeds MeasurementService.configuration (service.py lines 323-402) at the level the
data-type checks need: the deprecation warnings, the rejection of the four unsupported
data types before anything is appended, and on success the append of the parameter
built by the externally defined metadata constructor, abstracted as mkParam. Returns
the warnings, the error if raised, and the configuration parameter list afterwards. -/
def configurationDecorator {π : Type} (mkParam : DataType → π)
    (parameterList : List π) (t : DataType) :
    List ConfigWarning × Option ConfigError × List π :=
  let warns :=
    (if t = .Pin then [ConfigWarning.pinDeprecated] else []) ++
      (if t = .PinArray1D then [ConfigWarning.pinArray1DDeprecated] else [])
  if t ∈ [DataType.Double2DArray, DataType.DoubleXYData,
      DataType.DoubleXYDataArray1D, DataType.String2DArray] then
    (warns, some (.valueErrorUnsupported t), parameterList)
  else
    (warns, none, parameterList ++ [mkParam t])

/-- Helper: on a context whose completion flag is set, no sequence of operations ever
produces a transport cancel or a user cancellation callback. -/
theorem mscRun_complete_no_cancel_effects (ops : List MSCOp) :
    ∀ (c : MSContext), c.isComplete = true →
      ((mscRun c ops).2.filter isCancelObservable) = [] := by
  induction ops with
  | nil => intro c _; rfl
  | cons op ops ih =>
      intro c h
      cases op with
      | cancelOp => simp [mscRun, mscStep, h, ih c h]
      | abortOp code details =>
          simp [mscRun, mscStep, isCancelObservable, ih c h]
      | fireCancelCallbackOp => simp [mscRun, mscStep, h, ih c h]
      | markCompleteOp =>
          simp [mscRun, mscStep, ih (mscMarkComplete c) rfl]

/-- Helper: close applied to an already closed logger changes nothing, for any number
of further calls. -/
theorem callLoggerCloseMany_closed (excs : List (Option PyError)) :
    ∀ (s : CallLoggerState), s.closed = true → callLoggerCloseMany s excs = s := by
  induction excs with
  | nil => intro s _; rfl
  | cons e rest ih =>
      intro s h
      have hstep : callLoggerClose s e = s := by simp [callLoggerClose, h]
      calc callLoggerCloseMany s (e :: rest)
          = callLoggerCloseMany (callLoggerClose s e) rest := rfl
        _ = callLoggerCloseMany s rest := by rw [hstep]
        _ = s := ih s h

/-- Helper: the enumerate loop yields exactly the keys i, i+1, ... in order. -/
theorem frameMetadataGo_map_fst {π : Type} (l : List π) :
    ∀ i, (frameMetadataGo i l).map Prod.fst = List.range' i l.length := by
  induction l with
  | nil => intro i; rfl
  | cons p rest ih => intro i; simp [frameMetadataGo, List.range'_succ, ih]

/-- Helper: the enumerate loop keeps the declared parameters in declaration order. -/
theorem frameMetadataGo_map_snd {π : Type} (l : List π) :
    ∀ i, (frameMetadataGo i l).map Prod.snd = l := by
  induction l with
  | nil => intro i; rfl
  | cons p rest ih => intro i; simp [frameMetadataGo, ih]

/-- C1: evaluating _get_mapping_by_parameter_name at a signature whose first parameter
is annotated as the request stream, with one decoded configuration value available,
shows the positional pass rebinding that parameter to configuration ordinal 1 instead
of leaving it bound to the request stream, so the binding does not follow the claimed
precedence in which an annotation binding is never overridden. -/
theorem c1_annotated_request_param_rebound :
    getMappingByParameterName [(1, BindVal.cfg 1)] BindVal.requestStream
        BindVal.transportContext
        [{ name := "req", hint := "MeasureRequest" }, { name := "x", hint := "" }] =
      .ok [("req", BindVal.cfg 1), ("x", BindVal.transportContext)] ∧
    BindVal.cfg 1 ≠ BindVal.requestStream :=
  ⟨rfl, by decide⟩

/-- C2 counterexample: abort is not a no-op after completion — on a context already
marked complete, abort still produces the transport abort effect. -/
theorem c2_abort_after_complete_reaches_transport :
    (mscRun (mscMarkComplete { isComplete := false })
        [MSCOp.abortOp StatusCode.invalidArgument "details"]).2 =
      [TransportEffect.abortRpc StatusCode.invalidArgument "details"] ∧
    (mscRun (mscMarkComplete { isComplete := false })
        [MSCOp.abortOp StatusCode.invalidArgument "details"]).2 ≠ [] :=
  ⟨rfl, by decide⟩

/-- C2 (amended): once a MeasurementServiceContext is marked complete, no sequence of
subsequent operations ever invokes the transport cancel or a user-supplied cancellation
callback; the abort operation, by contrast, is not guarded by the completion flag. -/
theorem c2_complete_context_suppresses_cancel (c : MSContext) (ops : List MSCOp) :
    ((mscRun (mscMarkComplete c) ops).2.filter isCancelObservable) = [] :=
  mscRun_complete_no_cancel_effects ops (mscMarkComplete c) rfl

/-- C3: for any nonempty sequence of close calls on a fresh call logger, with any mix
of exception arguments, the first call emits the lifecycle record with its argument and
every later call is a no-op: the final state records exactly one emission. -/
theorem c3_close_idempotent (e : Option PyError) (rest : List (Option PyError)) :
    callLoggerCloseMany freshCallLogger (e :: rest) = { closed := true, emitted := [e] } ∧
    (callLoggerCloseMany freshCallLogger (e :: rest)).emitted.length = 1 := by
  have h1 : callLoggerClose freshCallLogger e = { closed := true, emitted := [e] } := by
    simp [callLoggerClose, freshCallLogger]
  have h2 : callLoggerCloseMany freshCallLogger (e :: rest)
      = callLoggerCloseMany (callLoggerClose freshCallLogger e) rest := rfl
  rw [h2, h1, callLoggerCloseMany_closed rest _ rfl]
  exact ⟨rfl, rfl⟩

/-- C4: from the moment the per-call context is published, every body outcome — normal
exhaustion of the result stream, an exception raised by the user routine, or
cancellation — produces the same teardown: mark_complete runs exactly once, on exactly
the published context, after the streamed responses and before the context variable is
reset, and the variable ends restored to its prior state. -/
theorem c4_publish_teardown {α : Type} (var : ContextVarState α) (c : α)
    (outcome : BodyOutcome) :
    measureFromPublish var c outcome =
      ([MeasureEvent.published c] ++ bodyEvents outcome ++
        [MeasureEvent.markedComplete c, MeasureEvent.unpublished], var) ∧
    ((measureFromPublish var c outcome).1.countP isMarkedCompleteEvent) = 1 := by
  obtain ⟨cur⟩ := var
  have h : measureFromPublish (⟨cur⟩ : ContextVarState α) c outcome =
      ([MeasureEvent.published c] ++ bodyEvents outcome ++
        [MeasureEvent.markedComplete c, MeasureEvent.unpublished],
        (⟨cur⟩ : ContextVarState α)) := by
    simp [measureFromPublish, contextVarSet, contextVarReset]
  refine ⟨h, ?_⟩
  rw [h]
  cases outcome <;>
    simp [List.countP_append, List.countP_cons, bodyEvents, List.countP_map,
      isMarkedCompleteEvent, List.countP_eq_zero, Function.comp]

/-- C5: evaluating the embedded Measure body at a request whose declared type URL is
wrong shows the advisory warning being emitted, naming the expected and the actual
type, and the validation not failing the call — decoding still runs — but the call then
fails with the TypeError from the two-argument invocation of the four-parameter binding
helper, so the measurement routine never runs; with the matching type URL no warning is
emitted and the call fails the same way. -/
theorem c5_wrong_type_url_advisory_then_bind_failure :
    measureCall (α := BindVal) "ns.Svc" (fun _ => .ok [(1, BindVal.cfg 1)])
        { configurationParameters :=
            { typeUrl := "type.googleapis.com/other.Type", value := [] } } =
      ([{ expected := "type.googleapis.com/ns.Svc.Configurations",
          actual := "type.googleapis.com/other.Type" }],
        .failed .typeErrorMissingArgs) ∧
    measureCall (α := BindVal) "ns.Svc" (fun _ => .ok [(1, BindVal.cfg 1)])
        { configurationParameters :=
            { typeUrl := "type.googleapis.com/ns.Svc.Configurations", value := [] } } =
      ([], .failed .typeErrorMissingArgs) :=
  ⟨rfl, rfl⟩

/-- C6: driving the streamed-response logging wrapper over any inner stream delivers
every successfully produced item unchanged, logs one streamed-response event per item
with no close, and the first terminal event — exhaustion or an exception — triggers
exactly one close, with no exception recorded on the normal end and with the raised
exception recorded on the error end, after which the terminal event propagates to the
consumer unchanged. -/
theorem c6_streamed_response_wrapper {α : Type} (items : List α) (t : Option PyError) :
    drainResponses items t =
      (items,
        (match t with
          | none => NextOutcome.stopIteration
          | some e => NextOutcome.raised e),
        items.map (fun _ => RespEvent.streamedResponse) ++
          [match t with
            | none => RespEvent.closedOk
            | some e => RespEvent.closedWithError e]) ∧
    ((drainResponses items t).2.2.countP isCloseEvent) = 1 := by
  have h : drainResponses items t =
      (items,
        (match t with
          | none => NextOutcome.stopIteration
          | some e => NextOutcome.raised e),
        items.map (fun _ => RespEvent.streamedResponse) ++
          [match t with
            | none => RespEvent.closedOk
            | some e => RespEvent.closedWithError e]) := by
    induction items with
    | nil => cases t <;> rfl
    | cons a rest ih => simp [drainResponses, loggingResponseNext, ih]
  refine ⟨h, ?_⟩
  rw [h]
  cases t <;>
    simp [List.countP_append, List.countP_cons, List.countP_map, isCloseEvent,
      List.countP_eq_zero, Function.comp]

/-- C7: with call logging disabled, each of the four client interceptors and the server
interceptor returns exactly the result of invoking the continuation on the unmodified
arguments — no call logger is constructed and no wrapper object is interposed — so the
intercepted call equals the un-intercepted pass-through call. -/
theorem c7_disabled_interceptors_pass_through {δ σ ρ : Type}
    (k : δ → ReqArg σ → Except PyError ρ) (ks : δ → Option HandlerShape)
    (details : δ) (request : σ) :
    interceptUnaryUnary false k details request = passthroughClientCall k details request ∧
    interceptUnaryStream false k details request = passthroughClientCall k details request ∧
    interceptStreamUnary false k details request = passthroughClientCall k details request ∧
    interceptStreamStream false k details request = passthroughClientCall k details request ∧
    interceptService false ks details = passthroughServerCall ks details ∧
    (passthroughClientCall k details request).loggersCreated = 0 ∧
    (passthroughServerCall ks details).loggersCreated = 0 := by
  refine ⟨?_, ?_, ?_, ?_, ?_, rfl, rfl⟩ <;>
    simp [interceptUnaryUnary, interceptUnaryStream, interceptStreamUnary,
      interceptStreamStream, interceptService, passthroughClientCall, passthroughServerCall]

/-- C8: for every registration of an ordered parameter list, the ordinal-to-metadata
mapping has key list exactly 1..N in order — no gaps, no repeats, so a registration
with an ordinal gap can never be produced — with the Nth declared parameter at
ordinal N, and the GetMetadata response reports exactly these ordinals as field
numbers in declaration order. -/
theorem c8_ordinal_contiguity {π : Type} (parameterList : List π) :
    (frameMetadataDict parameterList).map Prod.fst = List.range' 1 parameterList.length ∧
    (frameMetadataDict parameterList).map Prod.snd = parameterList ∧
    (getMetadataConfigurationParameters parameterList).map
        (fun cp => cp.fieldNumber) = List.range' 1 parameterList.length ∧
    ((frameMetadataDict parameterList).map Prod.fst).Nodup := by
  refine ⟨frameMetadataGo_map_fst parameterList 1, frameMetadataGo_map_snd parameterList 1,
    ?_, ?_⟩
  · have h : (getMetadataConfigurationParameters parameterList).map
        (fun cp => cp.fieldNumber) =
        (frameMetadataDict parameterList).map Prod.fst := by
      simp [getMetadataConfigurationParameters, List.map_map, Function.comp]
    rw [h]
    exact frameMetadataGo_map_fst parameterList 1
  · rw [show (frameMetadataDict parameterList).map Prod.fst =
        List.range' 1 parameterList.length from frameMetadataGo_map_fst parameterList 1]
    exact List.nodup_range' 1 parameterList.length

/-- C9: listen fails with a configuration error, before any server object is created,
in exactly the two claimed cases — no measurement function registered (with the message
directing the caller to the register_measurement decorator) and a service already
running — and in the remaining case it creates and starts the server. -/
theorem c9_listen_configuration_errors (b : Bool) :
    MeasurementService.listen { measureFunctionRegistered := false, grpcServiceRunning := b } =
      (.error notRegisteredMessage, []) ∧
    MeasurementService.listen { measureFunctionRegistered := true, grpcServiceRunning := true } =
      (.error alreadyRunningMessage, []) ∧
    MeasurementService.listen { measureFunctionRegistered := true, grpcServiceRunning := false } =
      (.ok { measureFunctionRegistered := true, grpcServiceRunning := true },
        [HostEvent.serverCreatedAndStarted]) ∧
    strHasSub notRegisteredMessage "register_measurement" = true :=
  ⟨rfl, rfl, rfl, rfl⟩

/-- C10: for each of the four unsupported data types, the configuration decorator
raises the ValueError and leaves the registered configuration parameter list unchanged,
with no parameter appended. -/
theorem c10_configuration_rejects_unsupported_types {π : Type} (mkParam : DataType → π)
    (parameterList : List π) :
    configurationDecorator mkParam parameterList DataType.Double2DArray =
      ([], some (.valueErrorUnsupported DataType.Double2DArray), parameterList) ∧
    configurationDecorator mkParam parameterList DataType.DoubleXYData =
      ([], some (.valueErrorUnsupported DataType.DoubleXYData), parameterList) ∧
    configurationDecorator mkParam parameterList DataType.DoubleXYDataArray1D =
      ([], some (.valueErrorUnsupported DataType.DoubleXYDataArray1D), parameterList) ∧
    configurationDecorator mkParam parameterList DataType.String2DArray =
      ([], some (.valueErrorUnsupported DataType.String2DArray), parameterList) :=
  ⟨rfl, rfl, rfl, rfl⟩
